import Mathlib

/-!
Verification development for the KK profile backend.

The repository has three server variants sharing one Postgres schema
(table `users`: id serial, phone unique not null, full_name, age, address,
avatar_url, created_at, updated_at, plus a `before update` trigger that
sets `updated_at = now()`):

* `server.js` — Firebase-token variant: `PUT /me` is an
  `insert ... on conflict (phone) do update` full-replace upsert,
  `GET /me` is a plain select; `requireAuth` checks a Bearer token.
* `part_000` — Twilio OTP variant: `/auth/verify` does an
  `insert (phone) ... on conflict do update set phone = excluded.phone`
  insert-or-touch, `PUT /me` is a plain `update ... where phone=$5`.
* `part_001` — second Firebase variant, same handlers as `server.js`.

The embedding models the table as a list of rows plus the serial counter;
SQL `now()` is an explicit `Nat` time argument.  JavaScript truthiness
(`x || y`, `if (!x)`) on strings is modelled by `jsTruthy`/`jsOr`:
`null`/absent and the empty string are falsy.
-/

namespace KK

/-- One row of the `users` table.  Nullable columns are `Option`;
`created_at`/`updated_at` are abstract instants (`Nat`). -/
structure Row where
  id : Nat
  phone : String
  full_name : Option String
  age : Option Int
  address : Option String
  avatar_url : Option String
  created_at : Nat
  updated_at : Nat
  deriving Repr, DecidableEq

/-- The database state: the `users` rows in insertion order and the next
value of the `id serial` sequence. -/
structure Db where
  rows : List Row
  nextId : Nat
  deriving Repr, DecidableEq

/-- The freshly initialised database (`create table if not exists users`):
no rows, serial starts at 1. -/
def Db.empty : Db := { rows := [], nextId := 1 }

/-- The patchable profile fields of a `PUT /me` body
`{ fullName?, age?, address?, avatarUrl? }`; an absent field is `none`
(the handlers pass `x ?? null` to the query). -/
structure Patch where
  fullName : Option String
  age : Option Int
  address : Option String
  avatarUrl : Option String
  deriving Repr, DecidableEq

/-- JavaScript truthiness of an optional string: `null`/absent and `""`
are falsy, every other string is truthy. -/
def jsTruthy : Option String → Bool
  | none => false
  | some s => !(s == "")

/-- JavaScript `a || b` on optional strings. -/
def jsOr (a b : Option String) : Option String :=
  if jsTruthy a then a else b

/-- The read `select * from users where phone=$1` followed by `r.rows[0]`:
the first (with the unique constraint: only) row with that phone. -/
def getByPhone (db : Db) (phone : String) : Option Row :=
  db.rows.find? (fun r => r.phone == phone)

/-- The `do update set` part of the `PUT /me` upsert together with the
`trg_users_updated` trigger: replace the four patchable columns by the
patch values and set `updated_at` to the current time; `id`, `phone`
and `created_at` are not in the `set` list. -/
def applyPatch (t : Nat) (p : Patch) (r : Row) : Row :=
  { r with
    full_name := p.fullName
    age := p.age
    address := p.address
    avatar_url := p.avatarUrl
    updated_at := t }

/-- Core of `server.js` `PUT /me`:
`insert into users (phone, full_name, age, address, avatar_url)
 values ($1,$2,$3,$4,$5) on conflict (phone) do update set ... returning *`.
If no row matches the phone, a fresh row is inserted with defaults
`created_at = updated_at = now()`; on conflict every row with that phone
(with the unique constraint: the one row) is fully replaced on the
patchable columns and the trigger refreshes `updated_at`.
Returns the `returning *` row and the new state. -/
def upsertByPhone (db : Db) (t : Nat) (phone : String) (p : Patch) : Row × Db :=
  match db.rows.find? (fun r => r.phone == phone) with
  | some r =>
      (applyPatch t p r,
       { db with rows := db.rows.map (fun x => if x.phone == phone then applyPatch t p x else x) })
  | none =>
      let r : Row :=
        { id := db.nextId, phone := phone, full_name := p.fullName, age := p.age,
          address := p.address, avatar_url := p.avatarUrl, created_at := t, updated_at := t }
      (r, { rows := db.rows ++ [r], nextId := db.nextId + 1 })

/-- Phone normalisation of `part_000`: `s?.startsWith('+') ? s : '+' + s`.
The prefix test is spelled on the character list so that it evaluates by
reduction; it is exactly `startsWith('+')`. -/
def toE164 (s : String) : String :=
  if s.data.take 1 == "+".data then s else "+" ++ s

/-- Store step of `part_000` `/auth/verify` (after the Twilio check is
approved): `insert into users (phone) values ($1)
on conflict (phone) do update set phone = excluded.phone returning *`
on the normalised phone.  On insert the descriptive columns default to
null; on conflict the `set phone = excluded.phone` is a no-op on the
columns but still fires the trigger, refreshing `updated_at`. -/
def verifyUpsert (db : Db) (t : Nat) (phone : String) : Row × Db :=
  match db.rows.find? (fun r => r.phone == toE164 phone) with
  | some r =>
      ({ r with phone := toE164 phone, updated_at := t },
       { db with rows := db.rows.map (fun x =>
           if x.phone == toE164 phone then { x with phone := toE164 phone, updated_at := t } else x) })
  | none =>
      ({ id := db.nextId, phone := toE164 phone, full_name := none, age := none,
         address := none, avatar_url := none, created_at := t, updated_at := t },
       { rows := db.rows ++
           [{ id := db.nextId, phone := toE164 phone, full_name := none, age := none,
              address := none, avatar_url := none, created_at := t, updated_at := t }],
         nextId := db.nextId + 1 })

/-- Core of `part_000` `PUT /me`: plain
`update users set full_name=$1, age=$2, address=$3, avatar_url=$4
 where phone=$5 returning *` plus the trigger.  Returns the updated row
(`r.rows[0]`) when one matched, `none` otherwise; no row is created. -/
def updateByPhone (db : Db) (t : Nat) (phone : String) (p : Patch) : Option Row × Db :=
  match db.rows.find? (fun r => r.phone == phone) with
  | some r =>
      (some (applyPatch t p r),
       { db with rows := db.rows.map (fun x => if x.phone == phone then applyPatch t p x else x) })
  | none => (none, db)

/-! ## Auth middleware and handlers -/

/-- The decoded Firebase claim set, as far as the handlers inspect it:
the `phone_number` claim and the `phoneNumber` fallback the handlers
probe (`req.auth?.phone_number || req.auth?.phoneNumber`). -/
structure Claims where
  phone_number : Option String
  phoneNumber : Option String
  deriving Repr, DecidableEq

/-- The token extraction of `requireAuth`:
`auth = req.headers.authorization || ''`,
`token = auth.startsWith('Bearer ') ? auth.slice(7) : null`,
and `if (!token)` treats both `null` and the empty slice as missing. -/
def extractToken (authHeader : Option String) : Option String :=
  let auth := authHeader.getD ""
  let token :=
    if auth.data.take 7 == "Bearer ".data then some (String.mk (auth.data.drop 7)) else none
  if jsTruthy token then token else none

/-- Outcomes of the `requireAuth` middleware short-circuiting. -/
inductive AuthFail where
  | missingToken
  | invalidToken
  deriving Repr, DecidableEq

/-- Middleware `requireAuth` from `server.js`/`part_001`: in dev mode
(`AUTH_REQUIRED=false`) it passes through without claims; otherwise it
requires a Bearer token (else 401 `missing_token`) and delegates to the
external verifier `verify` (modelled as a function to `Option Claims`;
`none` is any verification failure), failing with 401 `invalid_token`. -/
def requireAuth (authRequired : Bool) (verify : String → Option Claims)
    (authHeader : Option String) : Except AuthFail (Option Claims) :=
  if authRequired = false then .ok none
  else
    match extractToken authHeader with
    | none => .error .missingToken
    | some tok =>
        match verify tok with
        | some decoded => .ok (some decoded)
        | none => .error .invalidToken

/-- A JSON response body, as far as the handlers produce one. -/
inductive Body where
  | jnull
  | jerr (msg : String)
  | jrow (r : Row)
  deriving Repr, DecidableEq

/-- An HTTP response: status code and JSON body. -/
structure Response where
  status : Nat
  body : Body
  deriving Repr, DecidableEq

/-- The phone the `GET /me` handler resolves: from the verified claims
(`req.auth?.phone_number || req.auth?.phoneNumber`) in verified mode,
from `req.query.phone || null` in dev mode. -/
def resolveGetPhone (authRequired : Bool) (claims : Option Claims)
    (queryPhone : Option String) : Option String :=
  if authRequired then
    jsOr (claims.bind Claims.phone_number) (claims.bind Claims.phoneNumber)
  else jsOr queryPhone none

/-- Handler `GET /me` of `server.js`: run `requireAuth`, resolve the phone,
`400 missing_phone` if it is falsy, `500 me_failed` if the store call
throws (`storeOk = false`), else `200` with the row or JSON `null`.
The returned state is the (unchanged) database. -/
def getMe (authRequired : Bool) (verify : String → Option Claims)
    (authHeader : Option String) (queryPhone : Option String)
    (storeOk : Bool) (db : Db) : Response × Db :=
  match requireAuth authRequired verify authHeader with
  | .error .missingToken => ({ status := 401, body := .jerr "missing_token" }, db)
  | .error .invalidToken => ({ status := 401, body := .jerr "invalid_token" }, db)
  | .ok claims =>
      let phone := resolveGetPhone authRequired claims queryPhone
      if jsTruthy phone = false then
        ({ status := 400, body := .jerr "missing_phone" }, db)
      else if storeOk = false then
        ({ status := 500, body := .jerr "me_failed" }, db)
      else
        match getByPhone db (phone.getD "") with
        | some r => ({ status := 200, body := .jrow r }, db)
        | none => ({ status := 200, body := .jnull }, db)

/-- A `PUT /me` request body: the optional dev-mode `phone` plus the
patchable fields. -/
structure PutBody where
  phone : Option String
  fullName : Option String
  age : Option Int
  address : Option String
  avatarUrl : Option String
  deriving Repr, DecidableEq

/-- The patch a request body carries. -/
def PutBody.toPatch (b : PutBody) : Patch :=
  { fullName := b.fullName, age := b.age, address := b.address, avatarUrl := b.avatarUrl }

/-- The phone the `PUT /me` handler resolves: from the claims in verified
mode, from `req.body?.phone || null` in dev mode. -/
def resolvePutPhone (authRequired : Bool) (claims : Option Claims)
    (bodyPhone : Option String) : Option String :=
  if authRequired then
    jsOr (claims.bind Claims.phone_number) (claims.bind Claims.phoneNumber)
  else jsOr bodyPhone none

/-- Handler `PUT /me` of `server.js`: run `requireAuth`, resolve the phone,
`400 missing_phone` if falsy, `500 update_failed` if the store call
throws, else run the full-replace upsert at the current time `t` and
answer `200` with the `returning *` row. -/
def putMe (authRequired : Bool) (verify : String → Option Claims)
    (authHeader : Option String) (body : PutBody)
    (storeOk : Bool) (t : Nat) (db : Db) : Response × Db :=
  match requireAuth authRequired verify authHeader with
  | .error .missingToken => ({ status := 401, body := .jerr "missing_token" }, db)
  | .error .invalidToken => ({ status := 401, body := .jerr "invalid_token" }, db)
  | .ok claims =>
      let phone := resolvePutPhone authRequired claims body.phone
      if jsTruthy phone = false then
        ({ status := 400, body := .jerr "missing_phone" }, db)
      else if storeOk = false then
        ({ status := 500, body := .jerr "update_failed" }, db)
      else
        let (r, db') := upsertByPhone db t (phone.getD "") body.toPatch
        ({ status := 200, body := .jrow r }, db')

/-- Handler `PUT /me` of `part_000`: no auth middleware; `phone` must come
from the body; the store op is the plain update.  A missing row yields
`200` with JSON `null` and an unchanged database. -/
def otpPutMe (body : PutBody) (storeOk : Bool) (t : Nat) (db : Db) : Response × Db :=
  if jsTruthy body.phone = false then
    ({ status := 400, body := .jerr "missing_phone" }, db)
  else if storeOk = false then
    ({ status := 500, body := .jerr "update_failed" }, db)
  else
    match updateByPhone db t (body.phone.getD "") body.toPatch with
    | (some r, db') => ({ status := 200, body := .jrow r }, db')
    | (none, db') => ({ status := 200, body := .jnull }, db')

/-! ## Operation sequences, for the global invariants -/

/-- The store-touching operations any of the three servers can perform,
plus the pure read. -/
inductive Op where
  | put (phone : String) (patch : Patch)
  | verifyOtp (phone : String)
  | updOtp (phone : String) (patch : Patch)
  | read (phone : String)
  deriving Repr

/-- Apply one operation at one instant. -/
def stepOp (db : Db) (a : Nat × Op) : Db :=
  match a.2 with
  | .put ph p => (upsertByPhone db a.1 ph p).2
  | .verifyOtp ph => (verifyUpsert db a.1 ph).2
  | .updOtp ph p => (updateByPhone db a.1 ph p).2
  | .read _ => db

/-- Run a timed sequence of operations. -/
def runOps (db : Db) (ops : List (Nat × Op)) : Db :=
  ops.foldl stepOp db

/-- All phones in the table are pairwise distinct (the `phone text unique`
constraint). -/
def phonesDistinct (rows : List Row) : Prop :=
  rows.Pairwise (fun a b => a.phone ≠ b.phone)

/-- Every row was created no later than it was last updated, and no
timestamp lies beyond the instant `t` (the current time). -/
def timeInv (db : Db) (t : Nat) : Prop :=
  ∀ r ∈ db.rows, r.created_at ≤ r.updated_at ∧ r.updated_at ≤ t

/-! ## Helper lemmas -/

@[simp] theorem jsTruthy_none : jsTruthy none = false := rfl

@[simp] theorem applyPatch_phone (t : Nat) (p : Patch) (r : Row) :
    (applyPatch t p r).phone = r.phone := rfl

@[simp] theorem applyPatch_id (t : Nat) (p : Patch) (r : Row) :
    (applyPatch t p r).id = r.id := rfl

@[simp] theorem applyPatch_created_at (t : Nat) (p : Patch) (r : Row) :
    (applyPatch t p r).created_at = r.created_at := rfl

/-- Finding by phone commutes with a map that does not change any phone. -/
theorem find?_map_of_phone_eq (rows : List Row) (p : String) (g : Row → Row)
    (hg : ∀ x, (g x).phone = x.phone) :
    (rows.map g).find? (fun r => r.phone == p)
      = (rows.find? (fun r => r.phone == p)).map g := by
  induction rows with
  | nil => rfl
  | cons a l ih =>
      by_cases h : a.phone == p
      · simp [List.find?_cons, hg, h]
      · simp [List.find?_cons, hg, h, ih]

/-- Counting by phone is unchanged by a map that does not change any phone. -/
theorem countP_map_of_phone_eq (rows : List Row) (p : String) (g : Row → Row)
    (hg : ∀ x, (g x).phone = x.phone) :
    (rows.map g).countP (fun r => r.phone == p)
      = rows.countP (fun r => r.phone == p) := by
  rw [List.countP_map]
  exact List.countP_congr (fun x _ => by simp [hg])

/-- Distinctness of phones survives a map that does not change any phone. -/
theorem phonesDistinct_map_of_phone_eq (rows : List Row) (g : Row → Row)
    (hg : ∀ x, (g x).phone = x.phone) (h : phonesDistinct rows) :
    phonesDistinct (rows.map g) := by
  rw [phonesDistinct, List.pairwise_map]
  exact h.imp (by simp [hg])

/-- If no row matches a phone, appending a row with that phone keeps all
phones distinct. -/
theorem phonesDistinct_append_of_find?_none (rows : List Row) (r : Row)
    (h : rows.find? (fun x => x.phone == r.phone) = none)
    (hd : phonesDistinct rows) : phonesDistinct (rows ++ [r]) := by
  rw [phonesDistinct, List.pairwise_append]
  refine ⟨hd, List.pairwise_singleton _ _, ?_⟩
  intro a ha b hb
  have := List.find?_eq_none.mp h a ha
  simp only [List.mem_singleton] at hb
  subst hb
  simpa using this

/-- The conditional patching map used by the upsert never changes a phone. -/
theorem patchIf_phone_eq (t : Nat) (p : Patch) (ph : String) :
    ∀ x : Row, ((fun x => if x.phone == ph then applyPatch t p x else x) x).phone = x.phone := by
  intro x
  by_cases h : x.phone == ph <;> simp [h]

/-- The conditional touch map used by the OTP verify upsert never changes
a phone. -/
theorem touchIf_phone_eq (t : Nat) (ph : String) :
    ∀ x : Row, ((fun x => if x.phone == ph then { x with phone := ph, updated_at := t } else x) x).phone = x.phone := by
  intro x
  by_cases h : x.phone == ph
  · simp only [h, if_pos]
    exact (eq_of_beq h).symm
  · simp [h]

/-- After an upsert, reading the same phone returns exactly the
`returning *` row. -/
theorem getByPhone_upsertByPhone (db : Db) (t : Nat) (ph : String) (p : Patch) :
    getByPhone (upsertByPhone db t ph p).2 ph = some (upsertByPhone db t ph p).1 := by
  unfold getByPhone upsertByPhone
  cases h : db.rows.find? (fun r => r.phone == ph) with
  | some r =>
      simp only
      rw [find?_map_of_phone_eq _ _ _ (patchIf_phone_eq t p ph), h]
      have hre : r.phone = ph := by simpa using List.find?_some h
      simp [hre]
  | none =>
      simp only
      rw [List.find?_append, h]
      simp [List.find?_cons]

/-- The row returned by the upsert carries exactly the patch's values in
the four patchable fields. -/
theorem upsertByPhone_fields (db : Db) (t : Nat) (ph : String) (p : Patch) :
    (upsertByPhone db t ph p).1.full_name = p.fullName ∧
    (upsertByPhone db t ph p).1.age = p.age ∧
    (upsertByPhone db t ph p).1.address = p.address ∧
    (upsertByPhone db t ph p).1.avatar_url = p.avatarUrl := by
  unfold upsertByPhone
  cases h : db.rows.find? (fun r => r.phone == ph) <;> simp [applyPatch]

/-- The row returned by the upsert has `updated_at` equal to the call's
current time (insert default or trigger refresh). -/
theorem upsertByPhone_updated_at (db : Db) (t : Nat) (ph : String) (p : Patch) :
    (upsertByPhone db t ph p).1.updated_at = t := by
  unfold upsertByPhone
  cases h : db.rows.find? (fun r => r.phone == ph) <;> simp [applyPatch]

/-- An upsert leaves exactly one row for the phone, provided the unique
constraint held before (at most one row for it). -/
theorem countP_upsertByPhone (db : Db) (t : Nat) (ph : String) (p : Patch)
    (hd : db.rows.countP (fun r => r.phone == ph) ≤ 1) :
    (upsertByPhone db t ph p).2.rows.countP (fun r => r.phone == ph) = 1 := by
  unfold upsertByPhone
  cases h : db.rows.find? (fun r => r.phone == ph) with
  | some r =>
      simp only
      rw [countP_map_of_phone_eq _ _ _ (patchIf_phone_eq t p ph)]
      have hr : (r.phone == ph) = true := by simpa using List.find?_some h
      have h1 : 0 < db.rows.countP (fun r => r.phone == ph) :=
        List.countP_pos_iff.mpr ⟨r, List.mem_of_find?_eq_some h, hr⟩
      omega
  | none =>
      simp only
      rw [List.countP_append]
      have h0 : db.rows.countP (fun r => r.phone == ph) = 0 :=
        List.countP_eq_zero.mpr (List.find?_eq_none.mp h)
      simp [h0, List.countP_cons]

/-- The profile upsert keeps all phones distinct. -/
theorem phonesDistinct_upsertByPhone (db : Db) (t : Nat) (ph : String) (p : Patch)
    (h : phonesDistinct db.rows) : phonesDistinct (upsertByPhone db t ph p).2.rows := by
  unfold upsertByPhone
  cases hf : db.rows.find? (fun r => r.phone == ph) with
  | some r =>
      exact phonesDistinct_map_of_phone_eq _ _ (patchIf_phone_eq t p ph) h
  | none =>
      exact phonesDistinct_append_of_find?_none _ _ hf h

/-- The OTP-verify upsert keeps all phones distinct. -/
theorem phonesDistinct_verifyUpsert (db : Db) (t : Nat) (phone : String)
    (h : phonesDistinct db.rows) : phonesDistinct (verifyUpsert db t phone).2.rows := by
  unfold verifyUpsert
  cases hf : db.rows.find? (fun r => r.phone == toE164 phone) with
  | some r =>
      exact phonesDistinct_map_of_phone_eq _ _ (touchIf_phone_eq t (toE164 phone)) h
  | none =>
      exact phonesDistinct_append_of_find?_none _ _ hf h

/-- The plain update keeps all phones distinct. -/
theorem phonesDistinct_updateByPhone (db : Db) (t : Nat) (ph : String) (p : Patch)
    (h : phonesDistinct db.rows) : phonesDistinct (updateByPhone db t ph p).2.rows := by
  unfold updateByPhone
  cases hf : db.rows.find? (fun r => r.phone == ph) with
  | some r =>
      exact phonesDistinct_map_of_phone_eq _ _ (patchIf_phone_eq t p ph) h
  | none =>
      exact h

/-- One step of any operation keeps all phones distinct. -/
theorem phonesDistinct_stepOp (db : Db) (a : Nat × Op)
    (h : phonesDistinct db.rows) : phonesDistinct (stepOp db a).rows := by
  rcases a with ⟨t, op⟩
  cases op with
  | put ph p => exact phonesDistinct_upsertByPhone db t ph p h
  | verifyOtp ph => exact phonesDistinct_verifyUpsert db t ph h
  | updOtp ph p => exact phonesDistinct_updateByPhone db t ph p h
  | read _ => exact h

/-- Distinct phones are preserved along any operation sequence. -/
theorem phonesDistinct_runOps (ops : List (Nat × Op)) (db : Db)
    (h : phonesDistinct db.rows) : phonesDistinct (runOps db ops).rows := by
  induction ops generalizing db with
  | nil => exact h
  | cons a rest ih => exact ih (stepOp db a) (phonesDistinct_stepOp db a h)

/-- Weakening the time bound of the timestamp invariant. -/
theorem timeInv_mono (db : Db) (u t : Nat) (h : timeInv db u) (hle : u ≤ t) :
    timeInv db t := by
  intro r hr
  have := h r hr
  omega

/-- The profile upsert preserves the timestamp invariant at the call's
current time. -/
theorem timeInv_upsertByPhone (db : Db) (t : Nat) (ph : String) (p : Patch) (u : Nat)
    (h : timeInv db u) (hle : u ≤ t) : timeInv (upsertByPhone db t ph p).2 t := by
  unfold upsertByPhone
  cases hf : db.rows.find? (fun r => r.phone == ph) with
  | some r =>
      intro y hy
      rw [List.mem_map] at hy
      obtain ⟨x, hx, rfl⟩ := hy
      have hx' := h x hx
      by_cases hxp : x.phone == ph
      · refine ⟨?_, ?_⟩ <;> simp [hxp, applyPatch] <;> omega
      · refine ⟨?_, ?_⟩ <;> simp [hxp] <;> omega
  | none =>
      intro y hy
      simp only [List.mem_append, List.mem_singleton] at hy
      rcases hy with hy | hy
      · have := h y hy
        omega
      · subst hy
        exact ⟨le_refl _, le_refl _⟩

/-- The OTP-verify upsert preserves the timestamp invariant at the call's
current time. -/
theorem timeInv_verifyUpsert (db : Db) (t : Nat) (phone : String) (u : Nat)
    (h : timeInv db u) (hle : u ≤ t) : timeInv (verifyUpsert db t phone).2 t := by
  unfold verifyUpsert
  cases hf : db.rows.find? (fun r => r.phone == toE164 phone) with
  | some r =>
      intro y hy
      rw [List.mem_map] at hy
      obtain ⟨x, hx, rfl⟩ := hy
      have hx' := h x hx
      by_cases hxp : x.phone == toE164 phone
      · refine ⟨?_, ?_⟩ <;> simp [hxp] <;> omega
      · refine ⟨?_, ?_⟩ <;> simp [hxp] <;> omega
  | none =>
      intro y hy
      simp only [List.mem_append, List.mem_singleton] at hy
      rcases hy with hy | hy
      · have := h y hy
        omega
      · subst hy
        exact ⟨le_refl _, le_refl _⟩

/-- The plain update preserves the timestamp invariant at the call's
current time. -/
theorem timeInv_updateByPhone (db : Db) (t : Nat) (ph : String) (p : Patch) (u : Nat)
    (h : timeInv db u) (hle : u ≤ t) : timeInv (updateByPhone db t ph p).2 t := by
  unfold updateByPhone
  cases hf : db.rows.find? (fun r => r.phone == ph) with
  | some r =>
      intro y hy
      rw [List.mem_map] at hy
      obtain ⟨x, hx, rfl⟩ := hy
      have hx' := h x hx
      by_cases hxp : x.phone == ph
      · refine ⟨?_, ?_⟩ <;> simp [hxp, applyPatch] <;> omega
      · refine ⟨?_, ?_⟩ <;> simp [hxp] <;> omega
  | none =>
      exact timeInv_mono db u t h hle

/-- One step of any operation preserves the timestamp invariant. -/
theorem timeInv_stepOp (db : Db) (t u : Nat) (op : Op)
    (h : timeInv db u) (hle : u ≤ t) : timeInv (stepOp db (t, op)) t := by
  cases op with
  | put ph p => exact timeInv_upsertByPhone db t ph p u h hle
  | verifyOtp ph => exact timeInv_verifyUpsert db t ph u h hle
  | updOtp ph p => exact timeInv_updateByPhone db t ph p u h hle
  | read _ => exact timeInv_mono db u t h hle

/-- Running a chain of operations at non-decreasing times preserves the
timestamp invariant up to some final instant. -/
theorem timeInv_runOps (ops : List (Nat × Op)) (db : Db) (t : Nat)
    (h : timeInv db t)
    (hch : List.Chain' (fun a b : Nat => a ≤ b) (t :: ops.map Prod.fst)) :
    ∃ u, timeInv (runOps db ops) u := by
  induction ops generalizing db t with
  | nil => exact ⟨t, h⟩
  | cons a rest ih =>
      rcases a with ⟨t', op⟩
      simp only [List.map_cons, List.chain'_cons] at hch
      exact ih (stepOp db (t', op)) t' (timeInv_stepOp db t' t op h hch.1) hch.2

/-! ## Claim theorems -/

/-- C1: for every phone and patch, `upsertByPhone` followed by
`getByPhone` on that phone returns the upserted profile, whose four
patchable fields equal the patch's values — fields absent from the patch
(`none`) come back null, i.e. Variant A full-replace semantics including
overwriting previously-set fields with null. -/
theorem C1_upsert_then_get (db : Db) (t : Nat) (ph : String) (p : Patch) :
    getByPhone (upsertByPhone db t ph p).2 ph = some (upsertByPhone db t ph p).1 ∧
    (upsertByPhone db t ph p).1.full_name = p.fullName ∧
    (upsertByPhone db t ph p).1.age = p.age ∧
    (upsertByPhone db t ph p).1.address = p.address ∧
    (upsertByPhone db t ph p).1.avatar_url = p.avatarUrl :=
  ⟨getByPhone_upsertByPhone db t ph p, upsertByPhone_fields db t ph p⟩

/-- C2: two successive upserts for the same phone (with distinct patches,
at strictly increasing times) leave exactly one row for that phone; its
patchable fields are the second patch's, and its `updated_at` after the
second call is strictly greater than after the first. -/
theorem C2_second_upsert_wins (db : Db) (t1 t2 : Nat) (ph : String) (p1 p2 : Patch)
    (hu : db.rows.countP (fun r => r.phone == ph) ≤ 1)
    (_hne : p1 ≠ p2) (ht : t1 < t2) :
    (upsertByPhone (upsertByPhone db t1 ph p1).2 t2 ph p2).2.rows.countP
        (fun r => r.phone == ph) = 1 ∧
    getByPhone (upsertByPhone (upsertByPhone db t1 ph p1).2 t2 ph p2).2 ph
      = some (upsertByPhone (upsertByPhone db t1 ph p1).2 t2 ph p2).1 ∧
    (upsertByPhone (upsertByPhone db t1 ph p1).2 t2 ph p2).1.full_name = p2.fullName ∧
    (upsertByPhone (upsertByPhone db t1 ph p1).2 t2 ph p2).1.age = p2.age ∧
    (upsertByPhone (upsertByPhone db t1 ph p1).2 t2 ph p2).1.address = p2.address ∧
    (upsertByPhone (upsertByPhone db t1 ph p1).2 t2 ph p2).1.avatar_url = p2.avatarUrl ∧
    (upsertByPhone db t1 ph p1).1.updated_at
      < (upsertByPhone (upsertByPhone db t1 ph p1).2 t2 ph p2).1.updated_at := by
  have hu1 : (upsertByPhone db t1 ph p1).2.rows.countP (fun r => r.phone == ph) ≤ 1 := by
    rw [countP_upsertByPhone db t1 ph p1 hu]
  refine ⟨countP_upsertByPhone _ t2 ph p2 hu1,
    getByPhone_upsertByPhone _ t2 ph p2,
    (upsertByPhone_fields _ t2 ph p2).1,
    (upsertByPhone_fields _ t2 ph p2).2.1,
    (upsertByPhone_fields _ t2 ph p2).2.2.1,
    (upsertByPhone_fields _ t2 ph p2).2.2.2, ?_⟩
  rw [upsertByPhone_updated_at, upsertByPhone_updated_at]
  exact ht

/-- Witness for C2 at a concrete database and patches. -/
theorem C2_second_upsert_wins_witness :
    (getByPhone (upsertByPhone (upsertByPhone Db.empty 3 "+6591234567"
        ⟨some "Ana Tan", some 29, none, none⟩).2 7 "+6591234567"
        ⟨none, none, some "12 Orchard Rd", none⟩).2 "+6591234567"
      = some (upsertByPhone (upsertByPhone Db.empty 3 "+6591234567"
        ⟨some "Ana Tan", some 29, none, none⟩).2 7 "+6591234567"
        ⟨none, none, some "12 Orchard Rd", none⟩).1) ∧
    (upsertByPhone (upsertByPhone Db.empty 3 "+6591234567"
        ⟨some "Ana Tan", some 29, none, none⟩).2 7 "+6591234567"
        ⟨none, none, some "12 Orchard Rd", none⟩).1.full_name = none := by
  have h := C2_second_upsert_wins Db.empty 3 7 "+6591234567"
    ⟨some "Ana Tan", some 29, none, none⟩ ⟨none, none, some "12 Orchard Rd", none⟩
    (by simp [Db.empty]) (by decide) (by decide)
  exact ⟨h.2.1, h.2.2.1⟩

/-- C3: `GET /me` with a resolved phone that has no row responds
`200` with JSON `null` (not an error), leaves the database exactly as it
was, and in particular still stores no row for that phone. -/
theorem C3_get_absent_no_row_created (verify : String → Option Claims)
    (authHeader : Option String) (db : Db) (p : String)
    (hp : p ≠ "") (h : getByPhone db p = none) :
    getMe false verify authHeader (some p) true db
      = ({ status := 200, body := .jnull }, db) ∧
    getByPhone (getMe false verify authHeader (some p) true db).2 p = none := by
  have hres : getMe false verify authHeader (some p) true db
      = ({ status := 200, body := .jnull }, db) := by
    unfold getMe requireAuth
    simp [resolveGetPhone, jsOr, jsTruthy, hp, h]
  exact ⟨hres, by rw [hres]; exact h⟩

/-- Witness for C3 on the empty database. -/
theorem C3_get_absent_no_row_created_witness :
    getMe false (fun _ => none) none (some "+6591234567") true Db.empty
      = ({ status := 200, body := .jnull }, Db.empty) ∧
    getByPhone (getMe false (fun _ => none) none (some "+6591234567") true Db.empty).2
      "+6591234567" = none :=
  C3_get_absent_no_row_created (fun _ => none) none Db.empty "+6591234567"
    (by decide) rfl

/-- C5: upserting a phone that already has a row keeps the returned row's
`id`, `phone` and `created_at`, keeps the serial counter and the number of
rows, and every row in the new state descends from an old row with the
same `id`, `phone` and `created_at` — rows for other phones are untouched.
Only the four patchable fields and `updated_at` can change. -/
theorem C5_upsert_frame (db : Db) (t : Nat) (ph : String) (p : Patch) (r : Row)
    (h : db.rows.find? (fun x => x.phone == ph) = some r) :
    (upsertByPhone db t ph p).1.id = r.id ∧
    (upsertByPhone db t ph p).1.phone = r.phone ∧
    (upsertByPhone db t ph p).1.created_at = r.created_at ∧
    (upsertByPhone db t ph p).2.nextId = db.nextId ∧
    (upsertByPhone db t ph p).2.rows.length = db.rows.length ∧
    ∀ y ∈ (upsertByPhone db t ph p).2.rows, ∃ x ∈ db.rows,
      y.id = x.id ∧ y.phone = x.phone ∧ y.created_at = x.created_at ∧
      (x.phone ≠ ph → y = x) := by
  unfold upsertByPhone
  simp only [h]
  refine ⟨by simp, by simp, by simp, by simp, by simp, ?_⟩
  intro y hy
  rw [List.mem_map] at hy
  obtain ⟨x, hx, rfl⟩ := hy
  refine ⟨x, hx, ?_, ?_, ?_, ?_⟩
  · by_cases hxp : x.phone == ph <;> simp [hxp]
  · exact patchIf_phone_eq t p ph x
  · by_cases hxp : x.phone == ph <;> simp [hxp]
  · intro hne
    have hxp : (x.phone == ph) = false := by simpa using hne
    simp [hxp]

/-- Witness for C5 on a one-row database. -/
theorem C5_upsert_frame_witness :
    (upsertByPhone ⟨[⟨1, "+65", some "Old", none, none, none, 2, 2⟩], 2⟩ 9 "+65"
        ⟨none, some 30, none, none⟩).1.id
      = (⟨1, "+65", some "Old", none, none, none, 2, 2⟩ : Row).id ∧
    (upsertByPhone ⟨[⟨1, "+65", some "Old", none, none, none, 2, 2⟩], 2⟩ 9 "+65"
        ⟨none, some 30, none, none⟩).1.phone
      = (⟨1, "+65", some "Old", none, none, none, 2, 2⟩ : Row).phone ∧
    (upsertByPhone ⟨[⟨1, "+65", some "Old", none, none, none, 2, 2⟩], 2⟩ 9 "+65"
        ⟨none, some 30, none, none⟩).1.created_at
      = (⟨1, "+65", some "Old", none, none, none, 2, 2⟩ : Row).created_at ∧
    (upsertByPhone ⟨[⟨1, "+65", some "Old", none, none, none, 2, 2⟩], 2⟩ 9 "+65"
        ⟨none, some 30, none, none⟩).2.nextId
      = (⟨[⟨1, "+65", some "Old", none, none, none, 2, 2⟩], 2⟩ : Db).nextId ∧
    (upsertByPhone ⟨[⟨1, "+65", some "Old", none, none, none, 2, 2⟩], 2⟩ 9 "+65"
        ⟨none, some 30, none, none⟩).2.rows.length
      = (⟨[⟨1, "+65", some "Old", none, none, none, 2, 2⟩], 2⟩ : Db).rows.length ∧
    ∀ y ∈ (upsertByPhone ⟨[⟨1, "+65", some "Old", none, none, none, 2, 2⟩], 2⟩ 9 "+65"
        ⟨none, some 30, none, none⟩).2.rows,
      ∃ x ∈ (⟨[⟨1, "+65", some "Old", none, none, none, 2, 2⟩], 2⟩ : Db).rows,
        y.id = x.id ∧ y.phone = x.phone ∧ y.created_at = x.created_at ∧
        (x.phone ≠ "+65" → y = x) :=
  C5_upsert_frame ⟨[⟨1, "+65", some "Old", none, none, none, 2, 2⟩], 2⟩ 9 "+65"
    ⟨none, some 30, none, none⟩ ⟨1, "+65", some "Old", none, none, none, 2, 2⟩ rfl

/-- C4: after any sequence of reads, profile upserts, OTP
verification-triggered upserts and plain updates starting from the fresh
database, every distinct phone occurs in at most one row: no operation
ever produces two rows with the same phone. -/
theorem C4_phone_uniqueness (ops : List (Nat × Op)) :
    phonesDistinct (runOps Db.empty ops).rows :=
  phonesDistinct_runOps ops Db.empty (by simp [phonesDistinct, Db.empty])

/-- C6: after any sequence of operations run at non-decreasing times
starting from the fresh database, every row satisfies
`created_at ≤ updated_at`: rows are created with both timestamps equal to
the current time and every mutation resets `updated_at` to the (no
earlier) current time. -/
theorem C6_updated_at_ge_created_at (ops : List (Nat × Op))
    (hch : List.Chain' (fun a b : Nat => a ≤ b) (0 :: ops.map Prod.fst)) :
    ∀ r ∈ (runOps Db.empty ops).rows, r.created_at ≤ r.updated_at := by
  obtain ⟨u, hu⟩ := timeInv_runOps ops Db.empty 0 (by simp [timeInv, Db.empty]) hch
  intro r hr
  exact (hu r hr).1

/-- Witness for C6 on a concrete three-operation history. -/
theorem C6_updated_at_ge_created_at_witness :
    List.Chain' (fun a b : Nat => a ≤ b)
      (0 :: ([(1, Op.verifyOtp "651"), (2, Op.put "+651" ⟨some "A", none, none, none⟩),
              (5, Op.updOtp "+651" ⟨none, some 4, none, none⟩)].map Prod.fst)) ∧
    ∀ r ∈ (runOps Db.empty
        [(1, Op.verifyOtp "651"), (2, Op.put "+651" ⟨some "A", none, none, none⟩),
         (5, Op.updOtp "+651" ⟨none, some 4, none, none⟩)]).rows,
      r.created_at ≤ r.updated_at :=
  ⟨by simp [List.chain'_cons], C6_updated_at_ge_created_at
    [(1, Op.verifyOtp "651"), (2, Op.put "+651" ⟨some "A", none, none, none⟩),
     (5, Op.updOtp "+651" ⟨none, some 4, none, none⟩)] (by simp [List.chain'_cons])⟩

/-- C7: in verified mode, a request to `GET /me` or `PUT /me` carrying no
bearer credential is answered `401 {error:"missing_token"}`, and one whose
token fails external verification is answered `401 {error:"invalid_token"}`;
in both cases the database is returned untouched. -/
theorem C7_auth_failures (verify : String → Option Claims)
    (authHeader : Option String) (q : Option String) (body : PutBody)
    (storeOk : Bool) (t : Nat) (db : Db) :
    (extractToken authHeader = none →
      getMe true verify authHeader q storeOk db
        = ({ status := 401, body := .jerr "missing_token" }, db) ∧
      putMe true verify authHeader body storeOk t db
        = ({ status := 401, body := .jerr "missing_token" }, db)) ∧
    (∀ tok, extractToken authHeader = some tok → verify tok = none →
      getMe true verify authHeader q storeOk db
        = ({ status := 401, body := .jerr "invalid_token" }, db) ∧
      putMe true verify authHeader body storeOk t db
        = ({ status := 401, body := .jerr "invalid_token" }, db)) := by
  constructor
  · intro h
    constructor <;> simp [getMe, putMe, requireAuth, h]
  · intro tok h hv
    constructor <;> simp [getMe, putMe, requireAuth, h, hv]

/-- Witness for C7: a request without a header and one with an
unverifiable token, against the empty database. -/
theorem C7_auth_failures_witness :
    (getMe true (fun _ => none) none none true Db.empty
        = ({ status := 401, body := .jerr "missing_token" }, Db.empty) ∧
      putMe true (fun _ => none) none ⟨none, none, none, none, none⟩ true 0 Db.empty
        = ({ status := 401, body := .jerr "missing_token" }, Db.empty)) ∧
    (getMe true (fun _ => none) (some "Bearer x") none true Db.empty
        = ({ status := 401, body := .jerr "invalid_token" }, Db.empty) ∧
      putMe true (fun _ => none) (some "Bearer x") ⟨none, none, none, none, none⟩ true 0 Db.empty
        = ({ status := 401, body := .jerr "invalid_token" }, Db.empty)) :=
  ⟨(C7_auth_failures (fun _ => none) none none ⟨none, none, none, none, none⟩
      true 0 Db.empty).1 (by decide),
   (C7_auth_failures (fun _ => none) (some "Bearer x") none ⟨none, none, none, none, none⟩
      true 0 Db.empty).2 "x" (by decide) rfl⟩

/-- C8 counterexample: in verified mode, a request whose token verifies
successfully but whose claim set contains no phone number is answered
`400 {error:"missing_phone"}` — not `401` — refuting the claim that every
resolver failure in verified mode (including `MissingPhoneClaim`) maps
to 401. -/
theorem C8_counterexample :
    (getMe true (fun _ => some ⟨none, none⟩) (some "Bearer tok") none true Db.empty).1
      = { status := 400, body := .jerr "missing_phone" } ∧
    (getMe true (fun _ => some ⟨none, none⟩) (some "Bearer tok") none true Db.empty).1.status
      ≠ 401 := by
  decide

/-- C8 (amended): the handlers map each failure kind to exactly one
status — `401 missing_token` without a bearer credential in verified
mode, `401 invalid_token` when verification fails, `400 missing_phone`
when the resolved phone is missing or empty (in trusted-input mode, and
likewise in verified mode when the verified claims carry no phone
number), and `500` when the store fails. -/
theorem C8_status_mapping (verify : String → Option Claims)
    (authHeader : Option String) (q : Option String) (body : PutBody)
    (storeOk : Bool) (t : Nat) (db : Db) :
    (extractToken authHeader = none →
      (getMe true verify authHeader q storeOk db).1
        = { status := 401, body := .jerr "missing_token" } ∧
      (putMe true verify authHeader body storeOk t db).1
        = { status := 401, body := .jerr "missing_token" }) ∧
    (∀ tok, extractToken authHeader = some tok → verify tok = none →
      (getMe true verify authHeader q storeOk db).1
        = { status := 401, body := .jerr "invalid_token" } ∧
      (putMe true verify authHeader body storeOk t db).1
        = { status := 401, body := .jerr "invalid_token" }) ∧
    (∀ tok c, extractToken authHeader = some tok → verify tok = some c →
      jsTruthy (jsOr c.phone_number c.phoneNumber) = false →
      (getMe true verify authHeader q storeOk db).1
        = { status := 400, body := .jerr "missing_phone" } ∧
      (putMe true verify authHeader body storeOk t db).1
        = { status := 400, body := .jerr "missing_phone" }) ∧
    (∀ tok c, extractToken authHeader = some tok → verify tok = some c →
      jsTruthy (jsOr c.phone_number c.phoneNumber) = true → storeOk = false →
      (getMe true verify authHeader q storeOk db).1
        = { status := 500, body := .jerr "me_failed" } ∧
      (putMe true verify authHeader body storeOk t db).1
        = { status := 500, body := .jerr "update_failed" }) ∧
    (jsTruthy q = false →
      (getMe false verify authHeader q storeOk db).1
        = { status := 400, body := .jerr "missing_phone" }) ∧
    (jsTruthy body.phone = false →
      (putMe false verify authHeader body storeOk t db).1
        = { status := 400, body := .jerr "missing_phone" }) ∧
    (jsTruthy q = true → storeOk = false →
      (getMe false verify authHeader q storeOk db).1
        = { status := 500, body := .jerr "me_failed" }) ∧
    (jsTruthy body.phone = true → storeOk = false →
      (putMe false verify authHeader body storeOk t db).1
        = { status := 500, body := .jerr "update_failed" }) := by
  refine ⟨?_, ?_, ?_, ?_, ?_, ?_, ?_, ?_⟩
  · intro h
    constructor <;> simp [getMe, putMe, requireAuth, h]
  · intro tok h hv
    constructor <;> simp [getMe, putMe, requireAuth, h, hv]
  · intro tok c h hv hph
    constructor <;>
      simp [getMe, putMe, requireAuth, resolveGetPhone, resolvePutPhone, h, hv, hph]
  · intro tok c h hv hph hs
    subst hs
    constructor <;>
      simp [getMe, putMe, requireAuth, resolveGetPhone, resolvePutPhone, h, hv, hph]
  · intro h
    simp [getMe, requireAuth, resolveGetPhone, jsOr, h]
  · intro h
    simp [putMe, requireAuth, resolvePutPhone, jsOr, h]
  · intro h hs
    subst hs
    simp [getMe, requireAuth, resolveGetPhone, jsOr, h]
  · intro h hs
    subst hs
    simp [putMe, requireAuth, resolvePutPhone, jsOr, h]

/-- Witness for the amended C8: one concrete request per failure kind. -/
theorem C8_status_mapping_witness :
    (getMe true (fun _ => none) none none true Db.empty).1
      = { status := 401, body := .jerr "missing_token" } ∧
    (getMe true (fun _ => none) (some "Bearer x") none true Db.empty).1
      = { status := 401, body := .jerr "invalid_token" } ∧
    (getMe true (fun _ => some ⟨none, none⟩) (some "Bearer x") none true Db.empty).1
      = { status := 400, body := .jerr "missing_phone" } ∧
    (getMe true (fun _ => some ⟨some "+65", none⟩) (some "Bearer x") none false Db.empty).1
      = { status := 500, body := .jerr "me_failed" } ∧
    (putMe false (fun _ => none) none ⟨none, none, none, none, none⟩ true 0 Db.empty).1
      = { status := 400, body := .jerr "missing_phone" } ∧
    (getMe false (fun _ => none) none (some "+65") false Db.empty).1
      = { status := 500, body := .jerr "me_failed" } :=
  ⟨((C8_status_mapping (fun _ => none) none none ⟨none, none, none, none, none⟩
      true 0 Db.empty).1 (by decide)).1,
   ((C8_status_mapping (fun _ => none) (some "Bearer x") none ⟨none, none, none, none, none⟩
      true 0 Db.empty).2.1 "x" (by decide) rfl).1,
   ((C8_status_mapping (fun _ => some ⟨none, none⟩) (some "Bearer x") none
      ⟨none, none, none, none, none⟩ true 0 Db.empty).2.2.1 "x" ⟨none, none⟩
      (by decide) rfl (by decide)).1,
   ((C8_status_mapping (fun _ => some ⟨some "+65", none⟩) (some "Bearer x") none
      ⟨none, none, none, none, none⟩ false 0 Db.empty).2.2.2.1 "x" ⟨some "+65", none⟩
      (by decide) rfl (by decide) rfl).1,
   (C8_status_mapping (fun _ => none) none none ⟨none, none, none, none, none⟩
      true 0 Db.empty).2.2.2.2.2.1 (by decide),
   (C8_status_mapping (fun _ => none) none (some "+65") ⟨none, none, none, none, none⟩
      false 0 Db.empty).2.2.2.2.2.2.1 (by decide) rfl⟩

/-- C9: a successful OTP verification for a phone with no existing row
appends exactly one bare row for the normalised phone (all four
descriptive fields null, both timestamps the current time); for a phone
that already has a row, every row keeps its `id`, `phone`, all four
descriptive fields and `created_at` unchanged. -/
theorem C9_verify_insert_or_noop (db : Db) (t : Nat) (p : String) :
    (db.rows.find? (fun r => r.phone == toE164 p) = none →
      (verifyUpsert db t p).2.rows = db.rows ++ [(verifyUpsert db t p).1] ∧
      (verifyUpsert db t p).1.phone = toE164 p ∧
      (verifyUpsert db t p).1.full_name = none ∧
      (verifyUpsert db t p).1.age = none ∧
      (verifyUpsert db t p).1.address = none ∧
      (verifyUpsert db t p).1.avatar_url = none ∧
      (verifyUpsert db t p).1.created_at = t ∧
      (verifyUpsert db t p).1.updated_at = t ∧
      (verifyUpsert db t p).2.rows.countP (fun r => r.phone == toE164 p) = 1) ∧
    (∀ r, db.rows.find? (fun x => x.phone == toE164 p) = some r →
      ∀ y ∈ (verifyUpsert db t p).2.rows, ∃ x ∈ db.rows,
        y.id = x.id ∧ y.phone = x.phone ∧ y.full_name = x.full_name ∧
        y.age = x.age ∧ y.address = x.address ∧ y.avatar_url = x.avatar_url ∧
        y.created_at = x.created_at) := by
  constructor
  · intro h
    have h0 : db.rows.countP (fun r => r.phone == toE164 p) = 0 :=
      List.countP_eq_zero.mpr (List.find?_eq_none.mp h)
    unfold verifyUpsert
    simp only [h]
    refine ⟨by simp, by simp, by simp, by simp, by simp, by simp, by simp, by simp, ?_⟩
    rw [List.countP_append]
    simp [h0, List.countP_cons]
  · intro r hr
    unfold verifyUpsert
    simp only [hr]
    intro y hy
    rw [List.mem_map] at hy
    obtain ⟨x, hx, rfl⟩ := hy
    refine ⟨x, hx, ?_, touchIf_phone_eq t (toE164 p) x, ?_, ?_, ?_, ?_, ?_⟩ <;>
      by_cases hxp : x.phone == toE164 p <;> simp [hxp]

/-- Witness for C9: one fresh verification and one repeat verification. -/
theorem C9_verify_insert_or_noop_witness :
    ((verifyUpsert Db.empty 4 "651").2.rows
        = Db.empty.rows ++ [(verifyUpsert Db.empty 4 "651").1] ∧
      (verifyUpsert Db.empty 4 "651").1.phone = toE164 "651" ∧
      (verifyUpsert Db.empty 4 "651").1.full_name = none ∧
      (verifyUpsert Db.empty 4 "651").1.age = none ∧
      (verifyUpsert Db.empty 4 "651").1.address = none ∧
      (verifyUpsert Db.empty 4 "651").1.avatar_url = none ∧
      (verifyUpsert Db.empty 4 "651").1.created_at = 4 ∧
      (verifyUpsert Db.empty 4 "651").1.updated_at = 4 ∧
      (verifyUpsert Db.empty 4 "651").2.rows.countP
        (fun r => r.phone == toE164 "651") = 1) ∧
    (∀ y ∈ (verifyUpsert ⟨[⟨1, "+651", some "Ana", some 29, none, none, 2, 3⟩], 2⟩
        9 "651").2.rows,
      ∃ x ∈ (⟨[⟨1, "+651", some "Ana", some 29, none, none, 2, 3⟩], 2⟩ : Db).rows,
        y.id = x.id ∧ y.phone = x.phone ∧ y.full_name = x.full_name ∧
        y.age = x.age ∧ y.address = x.address ∧ y.avatar_url = x.avatar_url ∧
        y.created_at = x.created_at) :=
  ⟨(C9_verify_insert_or_noop Db.empty 4 "651").1 (by decide),
   (C9_verify_insert_or_noop ⟨[⟨1, "+651", some "Ana", some 29, none, none, 2, 3⟩], 2⟩
      9 "651").2 ⟨1, "+651", some "Ana", some 29, none, none, 2, 3⟩ (by decide)⟩

/-- C10: in the OTP variant, `PUT /me` for a phone with no existing row
responds `200` with JSON `null` and leaves the database untouched — it is
a plain update, never an insert. -/
theorem C10_otp_put_no_upsert (db : Db) (t : Nat) (body : PutBody) (p : String)
    (hp : body.phone = some p) (hne : p ≠ "")
    (h : db.rows.find? (fun r => r.phone == p) = none) :
    otpPutMe body true t db = ({ status := 200, body := .jnull }, db) := by
  have hu : updateByPhone db t p body.toPatch = (none, db) := by
    unfold updateByPhone
    rw [h]
  unfold otpPutMe
  rw [hp]
  simp [jsTruthy, hne, hu]

/-- Witness for C10 on the empty database. -/
theorem C10_otp_put_no_upsert_witness :
    otpPutMe ⟨some "+65", some "Ana", none, none, none⟩ true 5 Db.empty
      = ({ status := 200, body := .jnull }, Db.empty) :=
  C10_otp_put_no_upsert Db.empty 5 ⟨some "+65", some "Ana", none, none, none⟩ "+65"
    rfl (by decide) rfl

end KK
